import Mathlib

/-!
Verification development for the Dex thin-client Tauri backend
(`apps/client/src-tauri/src/lib.rs`).

The file shallowly embeds the three credential-storage commands
(`save_auth_key`, `get_auth_key`, `delete_auth_key`) in their desktop and
mobile variants, and the tray setup (`setup_tray`) together with its two
event handlers, then proves the specified properties about them.

The OS secret store (the `keyring` crate's `Entry` for the fixed
`("dex", "auth-key")` identity) is an external collaborator.  It is
modelled at two levels:

* a raw level, where each command's error-mapping logic is a function of
  the raw outcomes the keyring calls may return (`KeyringError.noEntry`
  versus any other failure), exactly mirroring the Rust `match`es and
  `map_err(|e| e.to_string())?` lines;
* a state level, where the store itself is `Option String` (at most one
  secret under the fixed identity) and the keyring operations behave per
  their contract without spurious OS failures, so that the algebraic
  save/get/delete properties can be stated.

Tray handlers are embedded as pure functions from the window registry and
the incoming event to the list of observable effects they request; the
handlers discard the results of `window.show()` / `window.set_focus()`
(`let _ = ...` in the source), which the embedding reflects by the effect
list never depending on those results.
-/

namespace DexClient

/-- Errors of the keyring crate as the adapter distinguishes them: the
`NoEntry` variant, which the source pattern-matches on, versus every
other failure, carried with the message its `to_string()` produces. -/
inductive KeyringError where
  | noEntry
  | other (msg : String)
deriving DecidableEq, Repr

/-- The text `e.to_string()` yields for a keyring error; the `NoEntry`
display text is the one of the keyring crate. -/
def KeyringError.toMessage : KeyringError → String
  | .noEntry => "No matching entry found in secure storage"
  | .other msg => msg

/-- The OS secret store under the fixed ("dex", "auth-key") identity:
at most one text value is stored. -/
abbrev Keychain := Option String

/-- Contractual behaviour of `Entry::get_password`: the stored value if
present, the `NoEntry` error otherwise. -/
def Entry.get_password (s : Keychain) : Except KeyringError String :=
  match s with
  | some key => .ok key
  | none => .error .noEntry

/-- Contractual behaviour of `Entry::set_password`: overwrites the stored
value and succeeds. -/
def Entry.set_password (_s : Keychain) (key : String) :
    Keychain × Except KeyringError Unit :=
  (some key, .ok ())

/-- Contractual behaviour of `Entry::delete_credential`: removes the value
if present, fails with `NoEntry` otherwise. -/
def Entry.delete_credential (s : Keychain) :
    Keychain × Except KeyringError Unit :=
  match s with
  | some _ => (none, .ok ())
  | none => (none, .error .noEntry)

/-- Desktop `save_auth_key`, raw level: `entryNew` is the outcome of
`Entry::new("dex", "auth-key").map_err(|e| e.to_string())` and `setRes`
the outcome of `entry.set_password(&key)`.  Mirrors

    let entry = Entry::new("dex", "auth-key").map_err(|e| e.to_string())?;
    entry.set_password(&key).map_err(|e| e.to_string())?;
    Ok(())
-/
def save_auth_key_desktop (entryNew : Except String Unit)
    (setRes : Except KeyringError Unit) : Except String Unit :=
  match entryNew with
  | .error msg => .error msg
  | .ok _ =>
    match setRes with
    | .error e => .error e.toMessage
    | .ok _ => .ok ()

/-- Desktop `get_auth_key`, raw level.  Mirrors

    let entry = Entry::new("dex", "auth-key").map_err(|e| e.to_string())?;
    match entry.get_password() {
        Ok(key) => Ok(Some(key)),
        Err(keyring::Error::NoEntry) => Ok(None),
        Err(e) => Err(e.to_string()),
    }
-/
def get_auth_key_desktop (entryNew : Except String Unit)
    (getRes : Except KeyringError String) : Except String (Option String) :=
  match entryNew with
  | .error msg => .error msg
  | .ok _ =>
    match getRes with
    | .ok key => .ok (some key)
    | .error .noEntry => .ok none
    | .error e => .error e.toMessage

/-- Desktop `delete_auth_key`, raw level.  Mirrors

    let entry = Entry::new("dex", "auth-key").map_err(|e| e.to_string())?;
    match entry.delete_credential() {
        Ok(()) => Ok(()),
        Err(keyring::Error::NoEntry) => Ok(()), // Already deleted
        Err(e) => Err(e.to_string()),
    }
-/
def delete_auth_key_desktop (entryNew : Except String Unit)
    (delRes : Except KeyringError Unit) : Except String Unit :=
  match entryNew with
  | .error msg => .error msg
  | .ok _ =>
    match delRes with
    | .ok _ => .ok ()
    | .error .noEntry => .ok ()
    | .error e => .error e.toMessage

/-- Desktop `save_auth_key` over the store state, with the keyring
operating per its contract (entry construction succeeds, no spurious OS
failure). -/
def save_auth_key (s : Keychain) (key : String) :
    Keychain × Except String Unit :=
  let stepped := Entry.set_password s key
  (stepped.1, save_auth_key_desktop (.ok ()) stepped.2)

/-- Desktop `get_auth_key` over the store state, keyring per contract. -/
def get_auth_key (s : Keychain) : Except String (Option String) :=
  get_auth_key_desktop (.ok ()) (Entry.get_password s)

/-- Desktop `delete_auth_key` over the store state, keyring per
contract. -/
def delete_auth_key (s : Keychain) : Keychain × Except String Unit :=
  let stepped := Entry.delete_credential s
  (stepped.1, delete_auth_key_desktop (.ok ()) stepped.2)

/-- Mobile stub of `save_auth_key`: `let _ = key; Ok(())`. -/
def save_auth_key_mobile (key : String) : Except String Unit :=
  let _ := key
  .ok ()

/-- Mobile stub of `get_auth_key`: `Ok(None)`. -/
def get_auth_key_mobile : Except String (Option String) :=
  .ok none

/-- Mobile stub of `delete_auth_key`: `Ok(())`. -/
def delete_auth_key_mobile : Except String Unit :=
  .ok ()

/-- A webview window as the handlers see it: the outcomes its `show()` and
`set_focus()` calls would produce (both are discarded by the source via
`let _ = ...`). -/
structure Window where
  showResult : Except String Unit
  setFocusResult : Except String Unit

/-- Observable effects a tray handler can request. -/
inductive TrayEffect where
  | exitApp (code : Int)
  | showWindow (label : String)
  | setFocusWindow (label : String)
deriving DecidableEq, Repr

/-- Body of the `"show"` menu arm (lines 90-94 of the source): look up the
webview window labelled "main"; if present, call `show` then `set_focus`,
discarding both results. -/
def menuShowAction (windows : String → Option Window) : List TrayEffect :=
  match windows "main" with
  | some w =>
    let _ := w.showResult
    let _ := w.setFocusResult
    [.showWindow "main", .setFocusWindow "main"]
  | none => []

/-- Body of the left-click tray arm (lines 104-108 of the source): the
same lookup of "main" followed by `show` and `set_focus`, results
discarded.  Embedded separately because the source duplicates the code. -/
def trayClickAction (windows : String → Option Window) : List TrayEffect :=
  match windows "main" with
  | some w =>
    let _ := w.showResult
    let _ := w.setFocusResult
    [.showWindow "main", .setFocusWindow "main"]
  | none => []

/-- The `on_menu_event` closure: dispatch on `event.id.as_ref()`. -/
def on_menu_event (windows : String → Option Window) (eventId : String) :
    List TrayEffect :=
  if eventId = "quit" then [.exitApp 0]
  else if eventId = "show" then menuShowAction windows
  else []

/-- Mouse buttons of tray pointer events. -/
inductive MouseButton where
  | left
  | right
  | middle
deriving DecidableEq, Repr

/-- Button states of tray pointer events. -/
inductive MouseButtonState where
  | up
  | down
deriving DecidableEq, Repr

/-- Tray icon events the handler can receive. -/
inductive TrayIconEvent where
  | click (button : MouseButton) (buttonState : MouseButtonState)
  | doubleClick (button : MouseButton)
  | enter
  | move
  | leave
deriving DecidableEq, Repr

/-- The `on_tray_icon_event` closure: only a `Click` with `MouseButton::Left`
and `MouseButtonState::Up` acts; every other event falls through the
`if let` and does nothing. -/
def on_tray_icon_event (windows : String → Option Window)
    (event : TrayIconEvent) : List TrayEffect :=
  match event with
  | .click .left .up => trayClickAction windows
  | _ => []

/-- Environment for `setup_tray`: the outcomes of the fallible
constructions it performs, in source order, and the application's default
window icon (`Option`, unwrapped by the source).  Error payloads are the
stringified `Box<dyn Error>` messages. -/
structure TraySetupEnv where
  quitItemResult : Except String Unit
  showItemResult : Except String Unit
  menuResult : Except String Unit
  defaultWindowIcon : Option Unit
  trayBuildResult : Except String Unit

/-- Outcome of `setup_tray`: normal return, a recoverable `Err` produced
by a `?` propagation, or a panic. -/
inductive SetupOutcome where
  | ok
  | err (msg : String)
  | panicked (msg : String)
deriving DecidableEq, Repr

/-- Message of the Rust panic raised by `Option::unwrap` on `None`. -/
def unwrapNoneMessage : String := "called `Option::unwrap()` on a `None` value"

/-- Embedding of `setup_tray`: the two `MenuItem::with_id` calls and
`Menu::with_items` propagate failure with `?`; then the builder chain
unwraps `app.default_window_icon()` before `build(app)?` runs. -/
def setup_tray (env : TraySetupEnv) : SetupOutcome :=
  match env.quitItemResult with
  | .error e => .err e
  | .ok _ =>
  match env.showItemResult with
  | .error e => .err e
  | .ok _ =>
  match env.menuResult with
  | .error e => .err e
  | .ok _ =>
  match env.defaultWindowIcon with
  | none => .panicked unwrapNoneMessage
  | some _ =>
  match env.trayBuildResult with
  | .error e => .err e
  | .ok _ => .ok

/-- Outcome of the application entry point `run`. -/
inductive RunOutcome where
  | running
  | panicked (msg : String)
deriving DecidableEq, Repr

/-- Embedding of `run` on desktop targets: the setup closure calls
`setup_tray(app)?`; when the setup closure fails or panics, the host
framework's `run` surfaces it and the trailing
`.expect("error while running tauri application")` aborts the process
with that diagnostic. -/
def run (env : TraySetupEnv) : RunOutcome :=
  match setup_tray env with
  | .ok => .running
  | .err _ => .panicked "error while running tauri application"
  | .panicked msg => .panicked msg

/-- C1: on the desktop backend, for every text value v and every prior
store state, `save_auth_key v` succeeds and a subsequent `get_auth_key`
returns `Some v`. -/
theorem save_then_get (s : Keychain) (v : String) :
    (save_auth_key s v).2 = .ok () ∧
    get_auth_key (save_auth_key s v).1 = .ok (some v) :=
  ⟨rfl, rfl⟩

/-- C2: `get_auth_key` returns `Ok(None)` when no entry exists under the
fixed identity (both at the store level and at the raw level where the
keyring reports `NoEntry`), and it returns an error text only when entry
construction failed or the keyring failed with an error other than
`NoEntry`. -/
theorem get_empty_and_errors (en : Except String Unit)
    (gr : Except KeyringError String) :
    get_auth_key none = .ok none ∧
    get_auth_key_desktop (.ok ()) (.error .noEntry) = .ok none ∧
    ∀ msg, get_auth_key_desktop en gr = .error msg →
      en = Except.error msg ∨ gr = Except.error (.other msg) := by
  refine ⟨rfl, rfl, ?_⟩
  intro msg h
  cases en with
  | error m =>
    simp only [get_auth_key_desktop, Except.error.injEq] at h
    exact Or.inl (by rw [h])
  | ok u =>
    cases gr with
    | ok k => simp [get_auth_key_desktop] at h
    | error e =>
      cases e with
      | noEntry => simp [get_auth_key_desktop] at h
      | other m =>
        simp only [get_auth_key_desktop, KeyringError.toMessage,
          Except.error.injEq] at h
        exact Or.inr (by rw [h])

/-- Witness for `get_empty_and_errors` at a concrete failing entry
construction. -/
theorem get_empty_and_errors_witness :
    (Except.error "boom" : Except String Unit) = Except.error "boom" ∨
      (Except.ok "k" : Except KeyringError String) =
        Except.error (.other "boom") :=
  (get_empty_and_errors (.error "boom") (.ok "k")).2.2 "boom" rfl

/-- C3: `delete_auth_key` succeeds on an empty store (`NoEntry` is treated
as success), removes the entry when one exists, leaves the store such that
a subsequent `get_auth_key` returns empty, and returns an error text only
when entry construction failed or the keyring failed with an error other
than `NoEntry`. -/
theorem delete_idempotent (en : Except String Unit)
    (dr : Except KeyringError Unit) :
    delete_auth_key none = (none, .ok ()) ∧
    (∀ v, delete_auth_key (some v) = (none, .ok ())) ∧
    get_auth_key (delete_auth_key none).1 = .ok none ∧
    ∀ msg, delete_auth_key_desktop en dr = .error msg →
      en = Except.error msg ∨ dr = Except.error (.other msg) := by
  refine ⟨rfl, fun v => rfl, rfl, ?_⟩
  intro msg h
  cases en with
  | error m =>
    simp only [delete_auth_key_desktop, Except.error.injEq] at h
    exact Or.inl (by rw [h])
  | ok u =>
    cases dr with
    | ok k => simp [delete_auth_key_desktop] at h
    | error e =>
      cases e with
      | noEntry => simp [delete_auth_key_desktop] at h
      | other m =>
        simp only [delete_auth_key_desktop, KeyringError.toMessage,
          Except.error.injEq] at h
        exact Or.inr (by rw [h])

/-- Witness for `delete_idempotent` at a concrete failing entry
construction. -/
theorem delete_idempotent_witness :
    (Except.error "boom" : Except String Unit) = Except.error "boom" ∨
      (Except.ok () : Except KeyringError Unit) =
        Except.error (.other "boom") :=
  (delete_idempotent (.error "boom") (.ok ())).2.2.2 "boom" rfl

/-- C4: saving v1 then v2 overwrites, so `get_auth_key` returns
`Some v2`, for every prior store state. -/
theorem save_overwrites (s : Keychain) (v1 v2 : String) :
    get_auth_key (save_auth_key (save_auth_key s v1).1 v2).1 =
      .ok (some v2) :=
  rfl

/-- C5: the mobile stubs have no state at all, so regardless of prior
calls and of the input value, `save_auth_key` always succeeds without
persisting anything, `get_auth_key` always returns empty, and
`delete_auth_key` always succeeds. -/
theorem mobile_stub (k : String) :
    save_auth_key_mobile k = .ok () ∧
    get_auth_key_mobile = .ok none ∧
    delete_auth_key_mobile = .ok () :=
  ⟨rfl, rfl, rfl⟩

/-- C6: the menu-event handler dispatches exactly: id "quit" exits the
process with code 0; id "show" looks up the window labelled "main" and,
when present, requests show then focus (doing nothing when absent); every
other id produces no effect. -/
theorem menu_dispatch (windows : String → Option Window) (eventId : String)
    (w : Window) :
    on_menu_event windows "quit" = [.exitApp 0] ∧
    (windows "main" = some w →
      on_menu_event windows "show" =
        [.showWindow "main", .setFocusWindow "main"]) ∧
    (windows "main" = none → on_menu_event windows "show" = []) ∧
    (eventId ≠ "quit" → eventId ≠ "show" →
      on_menu_event windows eventId = []) := by
  refine ⟨?_, ?_, ?_, ?_⟩
  · simp [on_menu_event]
  · intro h
    simp [on_menu_event, menuShowAction, h]
  · intro h
    simp [on_menu_event, menuShowAction, h]
  · intro h1 h2
    simp [on_menu_event, h1, h2]

/-- Witness for `menu_dispatch` at a concrete unrecognized identifier and
an empty window registry. -/
theorem menu_dispatch_witness :
    on_menu_event (fun _ => none) "other" = [] :=
  (menu_dispatch (fun _ => none) "other" ⟨.ok (), .ok ()⟩).2.2.2
    (by decide) (by decide)

/-- C7: a left-button release on the tray icon shows and focuses the
window labelled "main" whatever the outcomes of its show/focus calls
would be (the handler discards them), and does nothing — raising no
error — when that window does not exist. -/
theorem tray_left_click (windows : String → Option Window) (w : Window) :
    (windows "main" = some w →
      on_tray_icon_event windows (.click .left .up) =
        [.showWindow "main", .setFocusWindow "main"]) ∧
    (windows "main" = none →
      on_tray_icon_event windows (.click .left .up) = []) := by
  constructor <;> intro h <;>
    simp [on_tray_icon_event, trayClickAction, h]

/-- Witness for `tray_left_click` with the "main" window absent. -/
theorem tray_left_click_witness :
    on_tray_icon_event (fun _ => none) (.click .left .up) = [] :=
  (tray_left_click (fun _ => none) ⟨.ok (), .ok ()⟩).2 rfl

/-- C8: tray setup is fallible — a failure of either menu-item
construction, of menu construction, or of tray-icon construction
propagates out of `setup_tray` as a recoverable error — and any such
error makes `run` abort the process with the diagnostic of its trailing
expect. -/
theorem setup_failure_fatal (env : TraySetupEnv) :
    (∀ e, env.quitItemResult = .error e → setup_tray env = .err e) ∧
    (env.quitItemResult = .ok () → ∀ e, env.showItemResult = .error e →
      setup_tray env = .err e) ∧
    (env.quitItemResult = .ok () → env.showItemResult = .ok () →
      ∀ e, env.menuResult = .error e → setup_tray env = .err e) ∧
    (env.quitItemResult = .ok () → env.showItemResult = .ok () →
      env.menuResult = .ok () → ∀ i, env.defaultWindowIcon = some i →
      ∀ e, env.trayBuildResult = .error e → setup_tray env = .err e) ∧
    (∀ msg, setup_tray env = .err msg →
      run env = .panicked "error while running tauri application") := by
  refine ⟨?_, ?_, ?_, ?_, ?_⟩
  · intro e h
    simp [setup_tray, h]
  · intro h1 e h
    simp [setup_tray, h1, h]
  · intro h1 h2 e h
    simp [setup_tray, h1, h2, h]
  · intro h1 h2 h3 i hi e h
    simp [setup_tray, h1, h2, h3, hi, h]
  · intro msg h
    simp [run, h]

/-- Witness for `setup_failure_fatal` at a concrete environment whose
first menu-item construction fails. -/
theorem setup_failure_fatal_witness :
    setup_tray ⟨.error "boom", .ok (), .ok (), some (), .ok ()⟩ =
      .err "boom" ∧
    run ⟨.error "boom", .ok (), .ok (), some (), .ok ()⟩ =
      .panicked "error while running tauri application" := by
  constructor
  · exact (setup_failure_fatal _).1 "boom" rfl
  · exact (setup_failure_fatal _).2.2.2.2 "boom"
      ((setup_failure_fatal _).1 "boom" rfl)

/-- C9: when the menu constructions succeed but the application has no
default window icon, `setup_tray` panics with the unwrap-on-None message
instead of returning the recoverable error used for the other
construction failures. -/
theorem missing_icon_panics (env : TraySetupEnv)
    (h1 : env.quitItemResult = .ok ()) (h2 : env.showItemResult = .ok ())
    (h3 : env.menuResult = .ok ()) (h4 : env.defaultWindowIcon = none) :
    setup_tray env = .panicked unwrapNoneMessage ∧
    ∀ msg, setup_tray env ≠ .err msg := by
  have hs : setup_tray env = .panicked unwrapNoneMessage := by
    simp [setup_tray, h1, h2, h3, h4]
  refine ⟨hs, fun msg h => ?_⟩
  rw [hs] at h
  exact SetupOutcome.noConfusion h

/-- Witness for `missing_icon_panics` at the concrete environment with no
default window icon. -/
theorem missing_icon_panics_witness :
    setup_tray ⟨.ok (), .ok (), .ok (), none, .ok ()⟩ =
      .panicked unwrapNoneMessage :=
  (missing_icon_panics ⟨.ok (), .ok (), .ok (), none, .ok ()⟩
    rfl rfl rfl rfl).1

/-- C10: the "show" menu arm and the left-click tray arm perform the
identical action on the identical target: the two embedded code blocks
are equal as functions of the window registry, and so are the two full
event paths. -/
theorem show_paths_equivalent (windows : String → Option Window) :
    on_menu_event windows "show" =
      on_tray_icon_event windows (.click .left .up) ∧
    menuShowAction windows = trayClickAction windows := by
  have h : menuShowAction windows = trayClickAction windows := by
    cases hw : windows "main" <;>
      simp [menuShowAction, trayClickAction, hw]
  refine ⟨?_, h⟩
  simp [on_menu_event, on_tray_icon_event, h]

end DexClient
